import Mathlib

/-!
Shallow embedding of `src/python/ettus/rfnoc_modtool/modtool_base.py`
(class `ModTool`): module-layout detection (`_check_directory`), the
V36→V37 version-upgrade check in `setup`, the skip-stage derivation in
`setup`, main-SWIG-file resolution (`_get_mainswigfile`) and file-path
resolution (`_setup_files`).

The filesystem is an explicit input (`FS`): `listdir` returns `none` on
`OSError`, `isfile`/`isdir` are predicates on path strings, `readText`
gives a file's text.  Paths are joined with `/` exactly as
`os.path.join` does for the relative components used by this code.
Python's `re.search` is only ever applied to the two literal patterns
`find_package\(Gnuradio` and `GR_REGISTER_COMPONENT`, so it is embedded
as a substring test.
-/

namespace ModToolBase

/-- Abstract filesystem, the external collaborator of the code.
`listdir` is `none` when `os.listdir`/`os.chdir` raises `OSError`. -/
structure FS where
  listdir : String → Option (List String)
  isfile : String → Bool
  isdir : String → Bool
  readText : String → String

/-- `os.path.join` for a relative second component. -/
def pathJoin (a b : String) : String := a ++ "/" ++ b

/-- Does `pat` occur as a prefix of `l`? -/
def listHasPrefix : List Char → List Char → Bool
  | _, [] => true
  | [], _ :: _ => false
  | c :: cs, p :: ps => c == p && listHasPrefix cs ps

/-- Does `pat` occur as a contiguous sublist of `l`? -/
def listOccurs : List Char → List Char → Bool
  | [], pat => listHasPrefix [] pat
  | c :: cs, pat => listHasPrefix (c :: cs) pat || listOccurs cs pat

/-- Substring test: the embedding of `re.search` for the literal
patterns used by `_check_directory`. -/
def containsSub (text pat : String) : Bool :=
  listOccurs text.toList pat.toList

/-- The fixed list `self._subdirs` from `ModTool.__init__`. -/
def subdirsList : List String :=
  ["lib", "include", "python", "swig", "grc", "examples", "rfnoc"]

/-- Boolean map over the seven known subdirectory names, used for both
`self._has_subdirs` and `self._skip_subdirs` (restricted to the known
keys; unknown directory names marked by `_check_directory` are kept
separately, see `CheckState.skip_other`). -/
structure Flags where
  lib : Bool
  incl : Bool
  python : Bool
  swig : Bool
  grc : Bool
  examples : Bool
  rfnoc : Bool
deriving DecidableEq

/-- All-false map: the initial value of both dictionaries in
`ModTool.__init__`. -/
def initFlags : Flags :=
  ⟨false, false, false, false, false, false, false⟩

/-- `m[name] = b` on a `Flags` map keyed by the known subdir names. -/
def Flags.set (fl : Flags) (name : String) (b : Bool) : Flags :=
  if name == "lib" then { fl with lib := b }
  else if name == "include" then { fl with incl := b }
  else if name == "python" then { fl with python := b }
  else if name == "swig" then { fl with swig := b }
  else if name == "grc" then { fl with grc := b }
  else if name == "examples" then { fl with examples := b }
  else if name == "rfnoc" then { fl with rfnoc := b }
  else fl

/-- `m[name]` on a `Flags` map keyed by the known subdir names. -/
def Flags.get (fl : Flags) (name : String) : Bool :=
  if name == "lib" then fl.lib
  else if name == "include" then fl.incl
  else if name == "python" then fl.python
  else if name == "swig" then fl.swig
  else if name == "grc" then fl.grc
  else if name == "examples" then fl.examples
  else if name == "rfnoc" then fl.rfnoc
  else false

/-- `_get_mainswigfile`'s loop body: return the first candidate `f` in
the list such that `os.path.isfile(os.path.join(self._dir, 'swig', f))`. -/
def firstExistingSwig (fs : FS) (dir : String) : List String → Option String
  | [] => none
  | f :: rest =>
    if fs.isfile (pathJoin (pathJoin dir "swig") f) then some f
    else firstExistingSwig fs dir rest

/-- `ModTool._get_mainswigfile`: tries `<modname>.i` then
`<modname>_swig.i` in `<dir>/swig/`, returns the first regular file, or
`none` when neither exists. -/
def get_mainswigfile (fs : FS) (dir modname : String) : Option String :=
  firstExistingSwig fs dir [modname ++ ".i", modname ++ "_swig.i"]

/-! ## `_check_directory` -/

/-- The mutable state touched by `_check_directory`: the local
`has_makefile`, `self._info['version']` (`none` when the key is not
set), `self._info['is_component']`, and the two subdirectory maps.
Unknown directory names that the loop marks in `self._skip_subdirs`
are collected in `skip_other`. -/
structure CheckState where
  has_makefile : Bool
  version : Option String
  is_component : Bool
  has_subdirs : Flags
  skip_subdirs : Flags
  skip_other : List String
deriving DecidableEq

/-- State at the start of `_check_directory` in a fresh `ModTool`:
`self._info` empty, both maps all-false. -/
def initCheckState : CheckState :=
  ⟨false, none, false, initFlags, initFlags, []⟩

/-- One iteration of the `for f in files` loop of `_check_directory`. -/
def checkStep (fs : FS) (st : CheckState) (f : String) : CheckState :=
  if fs.isfile f && (f == "CMakeLists.txt") then
    if containsSub (fs.readText f) "find_package(Gnuradio" then
      { st with version := some "36", has_makefile := true }
    else if containsSub (fs.readText f) "GR_REGISTER_COMPONENT" then
      { st with version := some "36", is_component := true,
                has_makefile := true }
    else st
  else if fs.isdir f then
    if subdirsList.contains f then
      { st with has_subdirs := st.has_subdirs.set f true }
    else
      { st with skip_other := st.skip_other ++ [f] }
  else st

/-- Python truthiness of `self._has_subdirs.values()` in the return
statement of `_check_directory`: a `dict_values` object is truthy iff
the dict is nonempty, and `self._has_subdirs` always holds exactly the
seven known subdirectory keys, so this is always `true`.  (The source
tests the truthiness of the values view itself, not `any()` of it.) -/
def has_subdirs_values_truthy : Bool := !subdirsList.isEmpty

/-- `ModTool._check_directory`: lists `directory` (returning `False`
and leaving the state untouched on `OSError`), sets
`self._info['is_component'] = False`, runs the loop over the entries,
and returns `bool(has_makefile and self._has_subdirs.values())`. -/
def check_directory (fs : FS) (directory : String) (st0 : CheckState) :
    Bool × CheckState :=
  match fs.listdir directory with
  | none => (false, st0)
  | some files =>
    let st1 := { st0 with is_component := false }
    let st2 := files.foldl (checkStep fs) st1
    (st2.has_makefile && has_subdirs_values_truthy, st2)

/-! ## The version-upgrade check and skip derivation in `setup` -/

/-- The slice of `ModTool` state that `setup` manipulates between the
`_check_directory` call and `_setup_files`. -/
structure SetupState where
  modpath : String
  modname : String
  version : Option String
  is_component : Bool
  has_subdirs : Flags
  skip_subdirs : Flags
deriving DecidableEq

/-- Lines 124–127 of `setup`: if `self._info['version'] == '36'` and
`include/<modname>/` or `include/gnuradio/<modname>/` is a directory
(paths relative to the module root, the cwd after `_check_directory`),
set `self._info['version'] = '37'`. -/
def upgrade_version_step (fs : FS) (st : SetupState) : SetupState :=
  if st.version == some "36" &&
      (fs.isdir (pathJoin "include" st.modname) ||
       fs.isdir (pathJoin (pathJoin "include" "gnuradio") st.modname)) then
    { st with version := some "37" }
  else st

/-- The per-stage skip flags supplied on the command line
(`--skip-lib`, `--skip-swig`, `--skip-python`, `--skip-grc`,
`--skip-examples`, `--skip-rfnoc`). -/
structure Args where
  skip_lib : Bool
  skip_swig : Bool
  skip_python : Bool
  skip_grc : Bool
  skip_examples : Bool
  skip_rfnoc : Bool
deriving DecidableEq

/-- Lines 128–139 of `setup`: the six conditional assignments to
`self._skip_subdirs`, in source order.  `mainswig` is the value of
`self._get_mainswigfile()` at that point.  Note the source tests
`args.skip_grc` (not `args.skip_examples` / `args.skip_rfnoc`) in the
last two assignments, and `self._has_subdirs['grc']` (not `'rfnoc'`)
in the last one. -/
def compute_skips (a : Args) (mainswig : Option String)
    (has skip0 : Flags) : Flags :=
  let s1 := if a.skip_lib || !has.lib then { skip0 with lib := true } else skip0
  let s2 := if a.skip_python || !has.python then { s1 with python := true } else s1
  let s3 := if a.skip_swig || mainswig.isNone || !has.swig then
              { s2 with swig := true } else s2
  let s4 := if a.skip_grc || !has.grc then { s3 with grc := true } else s3
  let s5 := if a.skip_grc || !has.examples then { s4 with examples := true } else s4
  let s6 := if a.skip_grc || !has.grc then { s5 with rfnoc := true } else s5
  s6

/-! ## `_setup_files` -/

/-- The `self._file` dictionary after `_setup_files`.  A key absent
from the dict is `none`; `_file` starts out empty in `__init__` and
`_setup_files` runs once, so a key is present iff `_setup_files`
assigned it. -/
structure FileSet where
  swig : Option String
  qalib : Option String
  pyinit : Option String
  cmlib : Option String
  cmgrc : Option String
  cmpython : Option String
  cminclude : Option String
  cmswig : Option String
  cmfind : Option String
deriving DecidableEq

/-- Result of `_setup_files`: the `_file` dict plus the two `_info`
entries it writes (`pydir`, `includedir`). -/
structure FilesResult where
  files : FileSet
  pydir : String
  includedir : String
deriving DecidableEq

/-- `ModTool._setup_files`, with the filesystem, `self._dir`,
`self._info['modname']`, `self._info['version']`,
`self._info['is_component']` and `self._skip_subdirs` as explicit
inputs.  The `swig` entry mirrors
`os.path.join('swig', self._get_mainswigfile())` guarded by
`not self._skip_subdirs['swig']`; when the guard passes but
`_get_mainswigfile` returns `None` the source would crash in
`os.path.join`, embedded here as the `Option.map` over `none`. -/
def setup_files (fs : FS) (dir modname : String) (version : Option String)
    (is_component : Bool) (skip : Flags) : FilesResult :=
  let fswig : Option String :=
    if !skip.swig then
      (get_mainswigfile fs dir modname).map (fun f => pathJoin "swig" f)
    else none
  let pydir : String :=
    if fs.isdir (pathJoin "python" modname) then pathJoin "python" modname
    else "python"
  let includedir : String :=
    if is_component then pathJoin (pathJoin "include" "gnuradio") modname
    else if version == some "37" then pathJoin "include" modname
    else "include"
  { files :=
      { swig := fswig
        qalib := some (pathJoin "lib" ("qa_" ++ modname ++ ".cc"))
        pyinit := some (pathJoin pydir "__init__.py")
        cmlib := some (pathJoin "lib" "CMakeLists.txt")
        cmgrc := some (pathJoin "grc" "CMakeLists.txt")
        cmpython := some (pathJoin pydir "CMakeLists.txt")
        cminclude := some (pathJoin includedir "CMakeLists.txt")
        cmswig := some (pathJoin "swig" "CMakeLists.txt")
        cmfind := some (pathJoin (pathJoin "cmake" "Modules")
                          "rfnoc_exampleConfig.cmake") }
    pydir := pydir
    includedir := includedir }

/-! ## Concrete filesystem fixtures -/

/-- A root whose only entry is a `CMakeLists.txt` with the
`find_package(Gnuradio` marker: no subdirectory at all. -/
def markerOnlyFS : FS where
  listdir := fun d => if d == "." then some ["CMakeLists.txt"] else none
  isfile := fun f => f == "CMakeLists.txt"
  isdir := fun _ => false
  readText := fun f =>
    if f == "CMakeLists.txt" then "project(gr-test)\nfind_package(Gnuradio REQUIRED)\n"
    else ""

/-- A root with a marker-bearing `CMakeLists.txt` and a `lib/`
subdirectory. -/
def markerWithLibFS : FS where
  listdir := fun d => if d == "." then some ["CMakeLists.txt", "lib"] else none
  isfile := fun f => f == "CMakeLists.txt"
  isdir := fun f => f == "lib"
  readText := fun f =>
    if f == "CMakeLists.txt" then "find_package(Gnuradio REQUIRED)" else ""

/-- A filesystem where the only regular file is `./swig/foo_swig.i`
(so `swig/foo.i` is absent). -/
def swigOnlyFS : FS where
  listdir := fun _ => none
  isfile := fun p => p == "./swig/foo_swig.i"
  isdir := fun _ => false
  readText := fun _ => ""

/-- All seven known subdirectories present. -/
def allTrueFlags : Flags := ⟨true, true, true, true, true, true, true⟩

/-- Every stage marked skipped. -/
def allTrueSkips : Flags := ⟨true, true, true, true, true, true, true⟩

/-- All subdirectories present except `rfnoc`. -/
def hasNoRfnoc : Flags := ⟨true, true, true, true, true, true, false⟩

/-- Command line with only `--skip-examples` set. -/
def argsSkipExamples : Args := ⟨false, false, false, false, true, false⟩

/-- Command line with only `--skip-rfnoc` set. -/
def argsSkipRfnoc : Args := ⟨false, false, false, false, false, true⟩

/-- Command line with no skip flag set. -/
def argsNoSkips : Args := ⟨false, false, false, false, false, false⟩

/-! ## Helper lemmas -/

/-- A property preserved by every loop iteration is preserved by the
whole `for f in files` loop of `_check_directory`. -/
theorem foldl_checkStep_pres (fs : FS) (P : CheckState → Prop)
    (hstep : ∀ st f, P st → P (checkStep fs st f)) :
    ∀ (l : List String) (st : CheckState), P st → P (l.foldl (checkStep fs) st) := by
  intro l
  induction l with
  | nil => intro st h; simpa using h
  | cons x xs ih =>
    intro st h
    simp only [List.foldl_cons]
    exact ih _ (hstep st x h)

/-- A property established by the iteration on `x` and preserved by
every iteration holds after the loop whenever `x` occurs in the list. -/
theorem foldl_checkStep_mem (fs : FS) (P : CheckState → Prop) (x : String)
    (hstep : ∀ st f, P st → P (checkStep fs st f))
    (hx : ∀ st, P (checkStep fs st x)) :
    ∀ (l : List String) (st : CheckState), x ∈ l → P (l.foldl (checkStep fs) st) := by
  intro l
  induction l with
  | nil => intro st h; cases h
  | cons y ys ih =>
    intro st h
    simp only [List.foldl_cons]
    rcases List.mem_cons.mp h with h | h
    · subst h
      exact foldl_checkStep_pres fs P hstep ys _ (hx st)
    · exact ih _ h

/-- Once `has_makefile` is set and the version is `'36'`, no later loop
iteration unsets them. -/
theorem checkStep_pres_mk36 (fs : FS) (st : CheckState) (f : String)
    (h : st.has_makefile = true ∧ st.version = some "36") :
    (checkStep fs st f).has_makefile = true ∧
    (checkStep fs st f).version = some "36" := by
  unfold checkStep
  repeat' split
  all_goals simp_all

/-- Processing a `CMakeLists.txt` entry whose text holds the
`find_package(Gnuradio` marker sets `has_makefile` and version `'36'`
and leaves `is_component` alone. -/
theorem checkStep_cmake (fs : FS) (st : CheckState)
    (hfile : fs.isfile "CMakeLists.txt" = true)
    (hmark : containsSub (fs.readText "CMakeLists.txt")
      "find_package(Gnuradio" = true) :
    (checkStep fs st "CMakeLists.txt").has_makefile = true ∧
    (checkStep fs st "CMakeLists.txt").version = some "36" := by
  unfold checkStep
  simp [hfile, hmark]

/-- When the root `CMakeLists.txt` holds the `find_package(Gnuradio`
marker, no loop iteration changes `is_component` (the component branch
requires that marker to be absent from the same file). -/
theorem checkStep_pres_comp (fs : FS)
    (hmark : containsSub (fs.readText "CMakeLists.txt")
      "find_package(Gnuradio" = true)
    (st : CheckState) (f : String) :
    (checkStep fs st f).is_component = st.is_component := by
  unfold checkStep
  repeat' split
  all_goals simp_all

/-- The `swig` entry of the computed skip map, read off the six
sequential conditional assignments. -/
theorem compute_skips_swig (a : Args) (m : Option String) (has skip0 : Flags) :
    (compute_skips a m has skip0).swig =
      ((a.skip_swig || m.isNone || !has.swig) || skip0.swig) := by
  unfold compute_skips
  repeat' split
  all_goals simp_all

/-- `firstExistingSwig` returns the first candidate that exists. -/
theorem firstExistingSwig_eq_find (fs : FS) (dir : String) (l : List String) :
    firstExistingSwig fs dir l =
      l.find? (fun f => fs.isfile (pathJoin (pathJoin dir "swig") f)) := by
  induction l with
  | nil => rfl
  | cons f rest ih =>
    unfold firstExistingSwig
    cases h : fs.isfile (pathJoin (pathJoin dir "swig") f) <;>
      simp [List.find?, h, ih]

/-! ## Claim theorems -/

/-- C1: `_check_directory` accepts a root whose marker-bearing
`CMakeLists.txt` is the only entry — no known subdirectory exists
(`has_subdirs` stays all-false), yet the result is `True`, because the
return statement tests the truthiness of the `dict_values` view
instead of `any()` of it.  The claim (and the function docstring)
require failure here. -/
theorem check_directory_accepts_marker_without_subdirs :
    (check_directory markerOnlyFS "." initCheckState).1 = true ∧
    (check_directory markerOnlyFS "." initCheckState).2.has_subdirs = initFlags := by
  constructor
  · decide
  · decide

/-- C2 counterexample: with every stage skipped, `_setup_files` still
populates the qa-library source, lib/grc/python/swig CMakeLists and
python `__init__.py` entries, so the claimed invariant fails. -/
theorem setup_files_populates_despite_skips :
    ((setup_files swigOnlyFS "." "foo" (some "37") false allTrueSkips).files.qalib ≠ none) ∧
    ((setup_files swigOnlyFS "." "foo" (some "37") false allTrueSkips).files.cmlib ≠ none) ∧
    ((setup_files swigOnlyFS "." "foo" (some "37") false allTrueSkips).files.cmgrc ≠ none) ∧
    ((setup_files swigOnlyFS "." "foo" (some "37") false allTrueSkips).files.pyinit ≠ none) ∧
    ((setup_files swigOnlyFS "." "foo" (some "37") false allTrueSkips).files.cmpython ≠ none) ∧
    ((setup_files swigOnlyFS "." "foo" (some "37") false allTrueSkips).files.cmswig ≠ none) := by
  decide

/-- C2 amended: only the main-swig-interface entry is conditional — it
is populated iff the swig stage is not skipped and a main swig file
resolves; every other `_file` entry is populated unconditionally,
whatever the skip map says. -/
theorem setup_files_population (fs : FS) (dir modname : String)
    (version : Option String) (is_component : Bool) (skip : Flags) :
    ((setup_files fs dir modname version is_component skip).files.swig.isSome = true ↔
      (skip.swig = false ∧ (get_mainswigfile fs dir modname).isSome = true)) ∧
    (setup_files fs dir modname version is_component skip).files.qalib.isSome = true ∧
    (setup_files fs dir modname version is_component skip).files.pyinit.isSome = true ∧
    (setup_files fs dir modname version is_component skip).files.cmlib.isSome = true ∧
    (setup_files fs dir modname version is_component skip).files.cmgrc.isSome = true ∧
    (setup_files fs dir modname version is_component skip).files.cmpython.isSome = true ∧
    (setup_files fs dir modname version is_component skip).files.cminclude.isSome = true ∧
    (setup_files fs dir modname version is_component skip).files.cmswig.isSome = true ∧
    (setup_files fs dir modname version is_component skip).files.cmfind.isSome = true := by
  unfold setup_files
  cases hs : skip.swig <;>
    cases hm : get_mainswigfile fs dir modname <;>
      simp_all

/-- C3: the skip derivation ignores the `--skip-examples` and
`--skip-rfnoc` flags and the presence of the `rfnoc/` subdirectory:
with `--skip-examples` set the examples stage is not skipped, with
`--skip-rfnoc` set the rfnoc stage is not skipped, and with the
`rfnoc/` subdirectory absent (but `grc/` present) the rfnoc stage is
still not skipped — all contradicting the per-stage rule the claim
states. -/
theorem skip_examples_rfnoc_flags_ignored :
    (compute_skips argsSkipExamples (some "foo.i") allTrueFlags initFlags).examples = false ∧
    (compute_skips argsSkipRfnoc (some "foo.i") allTrueFlags initFlags).rfnoc = false ∧
    (compute_skips argsNoSkips (some "foo.i") hasNoRfnoc initFlags).rfnoc = false := by
  decide

/-- C4: `_get_mainswigfile` returns the first of the two candidates
`<modname>.i`, `<modname>_swig.i` (in that order) that exists as a
file under `<dir>/swig/`, and `none` when neither exists; in
particular, with only `swig/foo_swig.i` present it returns
`foo_swig.i`. -/
theorem get_mainswigfile_first_candidate :
    (∀ (fs : FS) (dir modname : String),
      get_mainswigfile fs dir modname =
        [modname ++ ".i", modname ++ "_swig.i"].find?
          (fun f => fs.isfile (pathJoin (pathJoin dir "swig") f))) ∧
    get_mainswigfile swigOnlyFS "." "foo" = some "foo_swig.i" := by
  constructor
  · intro fs dir modname
    exact firstExistingSwig_eq_find fs dir _
  · decide

/-- C5: the version-upgrade check rewrites the version to `'37'`
exactly when the detected version is `'36'` and `include/<name>/` or
`include/gnuradio/<name>/` exists as a directory; otherwise the
version is left unchanged. -/
theorem upgrade_version_step_version (fs : FS) (st : SetupState) :
    (upgrade_version_step fs st).version =
      if st.version = some "36" ∧
          (fs.isdir (pathJoin "include" st.modname) = true ∨
           fs.isdir (pathJoin (pathJoin "include" "gnuradio") st.modname) = true)
      then some "37" else st.version := by
  unfold upgrade_version_step
  split <;> split <;> simp_all

/-- C6: `includedir` is `include/gnuradio/<name>` whenever
`is_component` holds, regardless of the version; else
`include/<name>` when the version is `'37'`; else plain `include`. -/
theorem setup_files_includedir (fs : FS) (dir modname : String)
    (version : Option String) (is_component : Bool) (skip : Flags) :
    (setup_files fs dir modname version is_component skip).includedir =
      if is_component = true then pathJoin (pathJoin "include" "gnuradio") modname
      else if version = some "37" then pathJoin "include" modname
      else "include" := by
  unfold setup_files
  cases is_component <;> by_cases hv : version = some "37" <;> simp_all

/-- C7: a readable root listing a regular `CMakeLists.txt` whose text
holds the `find_package(Gnuradio` marker, with at least one known
subdirectory present, is accepted by `_check_directory` with version
`'36'` and `is_component = false`. -/
theorem check_directory_find_package_marker (fs : FS) (directory : String)
    (st0 : CheckState) (files : List String)
    (hls : fs.listdir directory = some files)
    (hmem : "CMakeLists.txt" ∈ files)
    (hfile : fs.isfile "CMakeLists.txt" = true)
    (hmark : containsSub (fs.readText "CMakeLists.txt")
      "find_package(Gnuradio" = true)
    (_hsub : ∃ d ∈ subdirsList, d ∈ files ∧ fs.isdir d = true) :
    (check_directory fs directory st0).1 = true ∧
    (check_directory fs directory st0).2.version = some "36" ∧
    (check_directory fs directory st0).2.is_component = false := by
  unfold check_directory
  rw [hls]
  have hmk : (files.foldl (checkStep fs) { st0 with is_component := false }).has_makefile = true ∧
      (files.foldl (checkStep fs) { st0 with is_component := false }).version = some "36" := by
    refine foldl_checkStep_mem fs
      (fun st => st.has_makefile = true ∧ st.version = some "36") "CMakeLists.txt"
      (fun st f h => checkStep_pres_mk36 fs st f h)
      (fun st => checkStep_cmake fs st hfile hmark) files _ hmem
  have hcomp : (files.foldl (checkStep fs) { st0 with is_component := false }).is_component = false := by
    refine foldl_checkStep_pres fs (fun st => st.is_component = false)
      (fun st f h => (checkStep_pres_comp fs hmark st f).trans h) files _ rfl
  refine ⟨?_, hmk.2, hcomp⟩
  simp [hmk.1, has_subdirs_values_truthy, subdirsList]

/-- Witness for C7 at a concrete root holding a marker-bearing
`CMakeLists.txt` and a `lib/` subdirectory. -/
theorem check_directory_find_package_marker_witness :
    (markerWithLibFS.listdir "." = some ["CMakeLists.txt", "lib"]) ∧
    ("CMakeLists.txt" ∈ ["CMakeLists.txt", "lib"]) ∧
    (markerWithLibFS.isfile "CMakeLists.txt" = true) ∧
    (containsSub (markerWithLibFS.readText "CMakeLists.txt")
      "find_package(Gnuradio" = true) ∧
    (∃ d ∈ subdirsList, d ∈ ["CMakeLists.txt", "lib"] ∧
      markerWithLibFS.isdir d = true) ∧
    ((check_directory markerWithLibFS "." initCheckState).1 = true ∧
     (check_directory markerWithLibFS "." initCheckState).2.version = some "36" ∧
     (check_directory markerWithLibFS "." initCheckState).2.is_component = false) :=
  ⟨by decide, by decide, by decide, by decide,
   ⟨"lib", by decide, by decide, by decide⟩,
   check_directory_find_package_marker markerWithLibFS "." initCheckState
     ["CMakeLists.txt", "lib"] (by decide) (by decide) (by decide) (by decide)
     ⟨"lib", by decide, by decide, by decide⟩⟩

/-- C8: `_setup_files` is a pure function of the filesystem, the
module directory, the module name, version, component flag and skip
map: identical inputs give an identical result. -/
theorem setup_files_deterministic (fs1 fs2 : FS) (dir1 dir2 mod1 mod2 : String)
    (v1 v2 : Option String) (c1 c2 : Bool) (sk1 sk2 : Flags)
    (hfs : fs1 = fs2) (hdir : dir1 = dir2) (hmod : mod1 = mod2)
    (hv : v1 = v2) (hc : c1 = c2) (hsk : sk1 = sk2) :
    setup_files fs1 dir1 mod1 v1 c1 sk1 = setup_files fs2 dir2 mod2 v2 c2 sk2 := by
  subst hfs hdir hmod hv hc hsk
  rfl

/-- Witness for C8 at concrete inputs. -/
theorem setup_files_deterministic_witness :
    setup_files swigOnlyFS "." "foo" (some "37") false initFlags =
      setup_files swigOnlyFS "." "foo" (some "37") false initFlags :=
  setup_files_deterministic swigOnlyFS swigOnlyFS "." "." "foo" "foo"
    (some "37") (some "37") false false initFlags initFlags
    rfl rfl rfl rfl rfl rfl

/-- C9: when the computed skip map leaves the swig stage active (with
the same filesystem seen by both `setup` and `_setup_files`),
`_get_mainswigfile` necessarily returns a filename, and the swig entry
of the FileSet is `swig/<that filename>` — the `None` branch of the
join is unreachable. -/
theorem swig_entry_total_when_not_skipped (fs : FS) (a : Args)
    (dir modname : String) (has skip0 : Flags) (version : Option String)
    (is_component : Bool)
    (h : (compute_skips a (get_mainswigfile fs dir modname) has skip0).swig = false) :
    ∃ f, get_mainswigfile fs dir modname = some f ∧
      (setup_files fs dir modname version is_component
        (compute_skips a (get_mainswigfile fs dir modname) has skip0)).files.swig =
        some (pathJoin "swig" f) := by
  have hsk := h
  rw [compute_skips_swig] at h
  cases hm : get_mainswigfile fs dir modname with
  | none => rw [hm] at h; simp at h
  | some f =>
    refine ⟨f, rfl, ?_⟩
    rw [hm] at hsk
    unfold setup_files
    simp [hsk, hm]

/-- Witness for C9 at concrete inputs. -/
theorem swig_entry_total_witness :
    ((compute_skips argsNoSkips (get_mainswigfile swigOnlyFS "." "foo")
        allTrueFlags initFlags).swig = false) ∧
    (∃ f, get_mainswigfile swigOnlyFS "." "foo" = some f ∧
      (setup_files swigOnlyFS "." "foo" none false
        (compute_skips argsNoSkips (get_mainswigfile swigOnlyFS "." "foo")
          allTrueFlags initFlags)).files.swig = some (pathJoin "swig" f)) :=
  ⟨by decide,
   swig_entry_total_when_not_skipped swigOnlyFS argsNoSkips "." "foo"
     allTrueFlags initFlags none false (by decide)⟩

/-- C10: the version-upgrade step touches at most the version field:
module name, module path, component flag and both subdirectory maps
come out unchanged. -/
theorem upgrade_version_step_frame (fs : FS) (st : SetupState) :
    (upgrade_version_step fs st).modname = st.modname ∧
    (upgrade_version_step fs st).modpath = st.modpath ∧
    (upgrade_version_step fs st).is_component = st.is_component ∧
    (upgrade_version_step fs st).has_subdirs = st.has_subdirs ∧
    (upgrade_version_step fs st).skip_subdirs = st.skip_subdirs := by
  unfold upgrade_version_step
  split <;> simp

end ModToolBase
